import Mathlib

/-!
Verification of the funmcp MCP-server repository's core pipeline against its
specification.  The Python sources are shallowly embedded:

* Python strings are `String` (char lists `List Char` underneath); `str.strip`,
  `str.lower`, `str.startswith`, slicing and `split` are modelled by explicit
  list functions below.
* JSON payloads (fal.ai results, presigned-upload responses) are a `Json`
  inductive; `dict.get` is association-list lookup.
* Network effects (HTTP posts, fal job submission/polling) are oracles passed
  in as explicit arguments: a poll oracle `Nat → String` gives the status
  string observed at each poll iteration, and `Except PyErr α` values give the
  outcome of each fallible component call.
* Raised Python exceptions are the `.error` side of `Except PyErr α`; a tool
  body without a `try`/`except` block maps component errors to an `uncaught`
  outcome, a body with one maps them through its handler clauses.
-/

/-- Characters treated as whitespace by Python's `str.strip`
(ASCII subset: space, tab, newline, carriage return, vertical tab, form feed). -/
def isPySpace (c : Char) : Bool :=
  c == ' ' || c == '\t' || c == '\n' || c == '\r' || c == Char.ofNat 11 || c == Char.ofNat 12

/-- Python `str.strip()` on the underlying character list: drop whitespace
from the front, then from the back. -/
def pyStripL (l : List Char) : List Char :=
  ((l.dropWhile isPySpace).reverse.dropWhile isPySpace).reverse

/-- Python `str.lower()` (ASCII). -/
def pyLowerL (l : List Char) : List Char := l.map Char.toLower

/-- The character list of the literal `"Bearer "` that `validate_token` strips. -/
def bearerChars : List Char := "Bearer ".data

/-- Embedding of `helpers.validate_token` (src/servers/helpers.py, lines 107-134).
The request's `Authorization` header is the input: `none` when the header is
absent.  Python's `not auth_header` is true both for `None` and for the empty
string, so both take the missing-header branch.  Mirrors:

    if not auth_header: return False, None, "Missing Authorization header"
    token = auth_header.strip()
    if token.startswith("Bearer "): token = token.split("Bearer ", 1)[1].strip()
    if not token: return False, None, "Empty authorization token"
    return True, token, ""

Since `token` starts with `"Bearer "` when the split runs, splitting once on
that string removes exactly the leading occurrence, i.e. drops its length. -/
def validate_token (authHeader : Option String) : Bool × Option String × String :=
  match authHeader with
  | none => (false, none, "Missing Authorization header")
  | some h =>
    if h = "" then (false, none, "Missing Authorization header")
    else
      let t0 := pyStripL h.data
      let t1 := if bearerChars.isPrefixOf t0 then pyStripL (t0.drop bearerChars.length) else t0
      if t1 = [] then (false, none, "Empty authorization token")
      else (true, some (String.mk t1), "")

/-- JSON values as returned by the provider and the storage API. -/
inductive Json where
  | null
  | bool (b : Bool)
  | num (n : Int)
  | str (s : String)
  | arr (elems : List Json)
  | obj (fields : List (String × Json))

/-- Python `dict.get(k)` on a JSON object (`None`, i.e. `none`, when the key
is absent or the value is not an object). -/
def Json.get : Json → String → Option Json
  | Json.obj fs, k => (fs.find? (fun p => p.1 == k)).map (fun p => p.2)
  | _, _ => none

/-- Python `dict.get(k)` on the static string-to-string tables. -/
def dictGet (d : List (String × String)) (k : String) : Option String :=
  (d.find? (fun p => p.1 == k)).map (fun p => p.2)

/-- Table CONTENT_TYPE_MAPPING of src/servers/helpers.py (lines 34-68):
content type to file extension. -/
def CONTENT_TYPE_MAPPING : List (String × String) :=
  [ ("image/jpeg", ".jpg")
  , ("image/jpg", ".jpg")
  , ("image/png", ".png")
  , ("image/webp", ".webp")
  , ("image/bmp", ".bmp")
  , ("image/tiff", ".tiff")
  , ("image/gif", ".gif")
  , ("model/gltf-binary", ".glb")
  , ("model/gltf+json", ".gltf")
  , ("model/obj", ".obj")
  , ("model/stl", ".stl")
  , ("video/mp4", ".mp4")
  , ("video/webm", ".webm")
  , ("video/ogg", ".ogv")
  , ("video/quicktime", ".mov")
  , ("video/x-matroska", ".mkv")
  , ("video/x-msvideo", ".avi")
  , ("video/mpeg", ".mpg")
  , ("video/x-flv", ".flv")
  , ("video/x-ms-wmv", ".wmv")
  , ("audio/mpeg", ".mp3")
  , ("audio/mp3", ".mp3")
  , ("audio/wav", ".wav")
  , ("audio/x-wav", ".wav")
  , ("audio/ogg", ".ogg")
  , ("audio/webm", ".webm")
  , ("audio/flac", ".flac")
  , ("audio/aac", ".aac")
  , ("audio/mp4", ".m4a")
  , ("audio/x-m4a", ".m4a") ]

/-- Table EXT_TO_CONTENT_TYPE of src/servers/helpers.py (lines 71-102):
file extension to content type, used for S3 uploads. -/
def EXT_TO_CONTENT_TYPE : List (String × String) :=
  [ (".jpg", "image/jpeg")
  , (".jpeg", "image/jpeg")
  , (".png", "image/png")
  , (".webp", "image/webp")
  , (".bmp", "image/bmp")
  , (".tiff", "image/tiff")
  , (".tif", "image/tiff")
  , (".gif", "image/gif")
  , (".glb", "model/gltf-binary")
  , (".gltf", "model/gltf+json")
  , (".obj", "model/obj")
  , (".stl", "model/stl")
  , (".mp4", "video/mp4")
  , (".webm", "video/webm")
  , (".ogv", "video/ogg")
  , (".mov", "video/quicktime")
  , (".mkv", "video/x-matroska")
  , (".avi", "video/x-msvideo")
  , (".mpg", "video/mpeg")
  , (".flv", "video/x-flv")
  , (".wmv", "video/x-ms-wmv")
  , (".mp3", "audio/mpeg")
  , (".wav", "audio/wav")
  , (".ogg", "audio/ogg")
  , (".flac", "audio/flac")
  , (".aac", "audio/aac")
  , (".m4a", "audio/mp4") ]

/-- Embedding of `helpers.infer_extension_from_content_type`
(src/servers/helpers.py, lines 222-237).  Mirrors:

    if not content_type: return ".jpg"
    ct = content_type.lower().split(";")[0].strip()
    return CONTENT_TYPE_MAPPING.get(ct, ".jpg")

`split(";")[0]` is the longest initial segment without a semicolon. -/
def infer_extension_from_content_type (content_type : Option String) : String :=
  match content_type with
  | none => ".jpg"
  | some s =>
    if s = "" then ".jpg"
    else
      let ct := String.mk (pyStripL ((pyLowerL s.data).takeWhile (fun c => !(c == ';'))))
      (dictGet CONTENT_TYPE_MAPPING ct).getD ".jpg"

/-- Python exceptions that the pipeline components can raise. -/
inductive PyErr where
  | requestException (m : String)
  | unidentifiedImage
  | valueError (m : String)
  | keyError (k : String)
  | otherException (m : String)

/-- The extension computation of `helpers.upload_to_s3` (line 179):

    ext = filename[filename.rfind('.'):].lower() if '.' in filename else '.jpg'

`filename[filename.rfind('.'):]` is the dot-suffix starting at the last dot. -/
def py_ext (filename : String) : String :=
  if '.' ∈ filename.data then
    String.mk (pyLowerL ('.' :: (filename.data.reverse.takeWhile (fun c => !(c == '.'))).reverse))
  else ".jpg"

/-- The content type `upload_to_s3` sends in its phase-1 create-upload request
(src/servers/helpers.py, line 180):
`EXT_TO_CONTENT_TYPE.get(ext, "application/octet-stream")`. -/
def sentContentType (filename : String) : String :=
  (dictGet EXT_TO_CONTENT_TYPE (py_ext filename)).getD "application/octet-stream"

/-- Observable record of one `upload_to_s3` run: the content type sent in the
phase-1 request body, whether the phase-2 POST to the presigned URL was
performed, and the overall outcome (`.error` is a raised exception,
`.ok (s3_key, file_size)` is the returned receipt). -/
structure UploadRun where
  sent_content_type : String
  phase2_performed : Bool
  outcome : Except PyErr (Json × Nat)

/-- Embedding of `helpers.upload_to_s3` (src/servers/helpers.py, lines 161-219).
`phase1` is the outcome of the authenticated create-upload POST including
`raise_for_status` (`.ok` carries the parsed JSON body `presigned_data`);
`phase2` is the outcome of the multipart POST to the presigned URL including
its `raise_for_status`.  Mirrors the source's order of operations:

    form_data = presigned_data.get("fields", {})       -- missing fields: defaults, no error
    s3_response = requests.post(presigned_data["url"], ...)  -- missing url: KeyError before the POST
    s3_response.raise_for_status()
    s3_key = presigned_data["file_id"]                 -- missing file_id: KeyError after the POST
    return s3_key, file_size
-/
def upload_to_s3 (phase1 : Except PyErr Json) (phase2 : Except PyErr Unit)
    (file_len : Nat) (filename : String) : UploadRun :=
  let ct := sentContentType filename
  match phase1 with
  | Except.error e => ⟨ct, false, Except.error e⟩
  | Except.ok presigned =>
    let _form := (Json.get presigned "fields").getD (Json.obj [])
    match Json.get presigned "url" with
    | none => ⟨ct, false, Except.error (PyErr.keyError "url")⟩
    | some _ =>
      match phase2 with
      | Except.error e => ⟨ct, true, Except.error e⟩
      | Except.ok _ =>
        match Json.get presigned "file_id" with
        | none => ⟨ct, true, Except.error (PyErr.keyError "file_id")⟩
        | some fid => ⟨ct, true, Except.ok (fid, file_len)⟩

/-- Embedding of `extract_image_url` of src/servers/genfill_server.py (lines
53-61) and src/servers/background_replace_server.py (lines 53-62), which are
identical.  Mirrors:

    images = result.get("images")
    if isinstance(images, list) and images:
        first = images[0]
        if isinstance(first, dict) and isinstance(first.get("url"), str):
            return first["url"], first.get("content_type")
    if isinstance(result.get("image"), dict) and isinstance(result["image"].get("url"), str):
        return result["image"]["url"], result["image"].get("content_type")
    raise RuntimeError(f"Unexpected result format, no image URL found: ...")

The raised error carries the complete raw payload, modelled by returning the
payload itself on the `.error` side. -/
def extract_image_url (result : Json) : Except Json (String × Option Json) :=
  let imageBranch : Except Json (String × Option Json) :=
    match Json.get result "image" with
    | some (Json.obj ifs) =>
      match Json.get (Json.obj ifs) "url" with
      | some (Json.str u) => Except.ok (u, Json.get (Json.obj ifs) "content_type")
      | _ => Except.error result
    | _ => Except.error result
  match Json.get result "images" with
  | some (Json.arr (first :: _)) =>
    match first with
    | Json.obj ffs =>
      match Json.get (Json.obj ffs) "url" with
      | some (Json.str u) => Except.ok (u, Json.get (Json.obj ffs) "content_type")
      | _ => imageBranch
    | _ => imageBranch
  | _ => imageBranch

/-- Events of one `wait_for_completion` run: each `get_status` call is an
`observe` of the status string it returned, each `time.sleep(poll_interval)`
is a `sleepStep`, and the single possible `get_result` call is a `fetch`. -/
inductive WEvent where
  | observe (s : String)
  | sleepStep
  | fetch
deriving DecidableEq

/-- How a `wait_for_completion` run ended within the given fuel: `gotResult`
(returned `get_result(...)`), `raised s` (raised `Exception(f"Request : {s}")`
on a status outside Completed/InProgress/Queued), or `fuelOut` (the unbounded
`while True` loop was still running after `fuel` iterations). -/
inductive WOutcome where
  | gotResult
  | raised (s : String)
  | fuelOut
deriving DecidableEq

/-- Embedding of `wait_for_completion` of src/servers/audio_clone_server.py
(lines 130-150) and src/servers/product_photoshoot_server.py (lines 134-154),
which are identical.  `getStatus i` is the status string `get_status` returns
at the i-th poll (`type(status).__name__`, e.g. "Queued", "InProgress",
"Completed").  The source loop is `while True` with no bound; `fuel` counts
iterations so that each finite observation of the loop is a value.  Mirrors:

    while True:
        status = self.get_status(request_id)
        if status == 'Completed': return self.get_result(request_id)
        elif status in ['InProgress', 'Queued']: time.sleep(poll_interval)
        else: raise Exception(f"Request : ...")
-/
def waitRun (getStatus : Nat → String) : Nat → Nat → List WEvent × WOutcome
  | 0, _ => ([], WOutcome.fuelOut)
  | fuel + 1, i =>
    let s := getStatus i
    if s = "Completed" then ([WEvent.observe s, WEvent.fetch], WOutcome.gotResult)
    else if s = "InProgress" ∨ s = "Queued" then
      let r := waitRun getStatus fuel (i + 1)
      (WEvent.observe s :: WEvent.sleepStep :: r.1, r.2)
    else ([WEvent.observe s], WOutcome.raised s)

/-- Is this event the `get_result` call? -/
def isFetch : WEvent → Bool
  | WEvent.fetch => true
  | _ => false

/-- Number of `get_result` calls in a trace. -/
def countFetch (es : List WEvent) : Nat := List.countP isFetch es

/-- The check `fetchGuardedFrom prev es` holds when every `fetch` in `es` is
immediately preceded by an observation of the status "Completed" (`prev` is
the event just before `es`, `none` at the start of the run). -/
def fetchGuardedFrom : Option WEvent → List WEvent → Bool
  | _, [] => true
  | prev, e :: rest =>
    (match e with
     | WEvent.fetch => decide (prev = some (WEvent.observe "Completed"))
     | _ => true) && fetchGuardedFrom (some e) rest

/-- Every `get_result` call in the trace happens right after observing
"Completed". -/
def fetchGuarded (es : List WEvent) : Bool := fetchGuardedFrom none es

/-- When the run raised, no `get_result` call happened and the raising status
was none of Completed / InProgress / Queued. -/
def raisedOk : List WEvent × WOutcome → Bool
  | (es, WOutcome.raised s) =>
    decide (countFetch es = 0)
      && !(decide (s = "Completed") || decide (s = "InProgress") || decide (s = "Queued"))
  | _ => true

/-- Outcome of one tool invocation as seen by the caller transport:
a success envelope, an error envelope (the `json.dumps({"error": ...})`
return), an uncaught Python exception escaping the tool function, or an
invocation still inside the polling loop (only reachable through `fuelOut`). -/
inductive ToolOutcome where
  | envelopeOk (s3_key : Json) (size : Nat)
  | envelopeErr (msg : String)
  | uncaught (e : PyErr)
  | divergent

/-- The `except` clauses of `grayscale_image` (src/servers/grayscale_server.py,
lines 175-185): `UnidentifiedImageError`, `requests.exceptions.RequestException`
and the catch-all `Exception` each map to an error envelope, so every raised
exception is converted. -/
def grayscaleCatch : PyErr → ToolOutcome
  | PyErr.unidentifiedImage => ToolOutcome.envelopeErr "Downloaded file is not a valid image."
  | PyErr.requestException m => ToolOutcome.envelopeErr ("Network error: " ++ m)
  | PyErr.valueError m => ToolOutcome.envelopeErr ("Unexpected error: " ++ m)
  | PyErr.keyError k => ToolOutcome.envelopeErr ("Unexpected error: " ++ k)
  | PyErr.otherException m => ToolOutcome.envelopeErr ("Unexpected error: " ++ m)

/-- Componentwise outcomes of one `grayscale_image` invocation's pipeline:
`download_image`, `convert_to_grayscale` and `upload_to_s3`.  Bytes are
abstracted to an opaque `Nat` handle. -/
structure GrayscaleEnv where
  download : Except PyErr (Nat × String)
  convert : Except PyErr Nat
  upload : Except PyErr (Json × Nat)

/-- Embedding of the `grayscale_image` tool function
(src/servers/grayscale_server.py, lines 132-185): a URL-scheme check before
any network call, then the pipeline inside a `try` block whose `except`
clauses are `grayscaleCatch`. -/
def grayscale_image (env : GrayscaleEnv) (file_url : String) : ToolOutcome :=
  if !(("http://".data.isPrefixOf file_url.data) || ("https://".data.isPrefixOf file_url.data)) then
    ToolOutcome.envelopeErr "file_url must start with http:// or https://"
  else
    match env.download with
    | Except.error e => grayscaleCatch e
    | Except.ok _ =>
      match env.convert with
      | Except.error e => grayscaleCatch e
      | Except.ok _ =>
        match env.upload with
        | Except.error e => grayscaleCatch e
        | Except.ok (k, n) => ToolOutcome.envelopeOk k n

/-- Embedding of `FalAudioClone.extract_output_url`
(src/servers/audio_clone_server.py, lines 165-179).  Mirrors:

    try: return result['audio']['url'], result["audio"]['content_type']
    except (KeyError, IndexError) as e: raise ValueError(...)
-/
def extract_output_url (result : Json) : Except PyErr (Json × Json) :=
  match Json.get result "audio" with
  | some audio =>
    match Json.get audio "url", Json.get audio "content_type" with
    | some u, some ct => Except.ok (u, ct)
    | _, _ => Except.error (PyErr.valueError "Could not extract audio URL from result")
  | none => Except.error (PyErr.valueError "Could not extract audio URL from result")

/-- Componentwise outcomes of one `clone_audio` invocation's pipeline:
`clone_audio_async` (submission), the poll oracle feeding
`wait_for_completion`, `get_result`, the artifact download (`requests.get`
plus `raise_for_status`), and `upload_to_s3`. -/
structure CloneEnv where
  submit : Except PyErr String
  getStatus : Nat → String
  getResult : Except PyErr Json
  download : Except PyErr Nat
  upload : Except PyErr (Json × Nat)

/-- Embedding of the `clone_audio` tool function
(src/servers/audio_clone_server.py, lines 185-237).  The body has no
`try`/`except` block, so every component error becomes an `uncaught` outcome;
a status outside Completed/InProgress/Queued makes `wait_for_completion`
raise `Exception(f"Request : {status}")`, which likewise escapes. -/
def clone_audio (env : CloneEnv) (fuel : Nat) : ToolOutcome :=
  match env.submit with
  | Except.error e => ToolOutcome.uncaught e
  | Except.ok _ =>
    match (waitRun env.getStatus fuel 0).2 with
    | WOutcome.fuelOut => ToolOutcome.divergent
    | WOutcome.raised s => ToolOutcome.uncaught (PyErr.otherException ("Request : " ++ s))
    | WOutcome.gotResult =>
      match env.getResult with
      | Except.error e => ToolOutcome.uncaught e
      | Except.ok result =>
        match extract_output_url result with
        | Except.error e => ToolOutcome.uncaught e
        | Except.ok _ =>
          match env.download with
          | Except.error e => ToolOutcome.uncaught e
          | Except.ok _ =>
            match env.upload with
            | Except.error e => ToolOutcome.uncaught e
            | Except.ok (k, n) => ToolOutcome.envelopeOk k n

/-- A concrete `clone_audio` invocation whose fal job fails: submission
succeeds, and the first poll reports the status "Failed". -/
def cloneFailEnv : CloneEnv :=
  { submit := Except.ok "req-1"
  , getStatus := fun _ => "Failed"
  , getResult := Except.error (PyErr.otherException "unused")
  , download := Except.error (PyErr.otherException "unused")
  , upload := Except.error (PyErr.otherException "unused") }

/-- Result of one `require_auth`-wrapped call: the authentication-failure
error envelope (`json.dumps({"error": ..., "attachments": []})`) or the
wrapped function's own return value, passed through unchanged. -/
inductive WrapResult (α : Type) where
  | envelope (err : String) (attachments : List Json)
  | passthrough (a : α)

/-- Observable record of one `require_auth` wrapper invocation: its result,
how many times the wrapped function was invoked, and the `auth_token`
keyword argument it received (when invoked). -/
structure WrapRun (α : Type) where
  result : WrapResult α
  calls : Nat
  tokenPassed : Option String

/-- Embedding of the `require_auth` decorator's `wrapper`
(src/servers/helpers.py, lines 137-156).  The wrapped tool function is
abstracted as `func` from the injected `auth_token` keyword argument to its
return value.  Mirrors:

    is_valid, token, error_msg = validate_token()
    if not is_valid:
        return json.dumps({"error": f"Authentication failed: ...", "attachments": []})
    kwargs["auth_token"] = token
    return await func(*args, **kwargs)
-/
def require_auth {α : Type} (func : Option String → α) (authHeader : Option String) : WrapRun α :=
  let v := validate_token authHeader
  if v.1 then
    ⟨WrapResult.passthrough (func v.2.1), 1, v.2.1⟩
  else
    ⟨WrapResult.envelope ("Authentication failed: " ++ v.2.2) [], 0, none⟩

/-! ### Helper lemmas about the string primitives -/

/-- The first element surviving `dropWhile` does not satisfy the predicate. -/
theorem dropWhile_head_neg {α : Type} {p : α → Bool} :
    ∀ {l : List α} {c : α} {t : List α}, l.dropWhile p = c :: t → p c = false := by
  intro l
  induction l with
  | nil => intro c t h; simp at h
  | cons a as ih =>
    intro c t h
    rw [List.dropWhile_cons] at h
    by_cases hp : p a = true
    · rw [if_pos hp] at h; exact ih h
    · rw [if_neg hp] at h
      injection h with h1 _
      subst h1
      simpa using hp

/-- An element that fails the predicate survives `dropWhile`. -/
theorem mem_dropWhile_of_neg {α : Type} {p : α → Bool} :
    ∀ {l : List α} {c : α}, c ∈ l → p c = false → c ∈ l.dropWhile p := by
  intro l
  induction l with
  | nil => intro c hm _; cases hm
  | cons a as ih =>
    intro c hm hc
    rw [List.dropWhile_cons]
    by_cases hp : p a = true
    · rw [if_pos hp]
      rcases List.mem_cons.mp hm with h1 | h2
      · subst h1; rw [hp] at hc; cases hc
      · exact ih h2 hc
    · rw [if_neg hp]
      exact hm

/-- `dropWhile` eats a list all of whose elements satisfy the predicate. -/
theorem dropWhile_eq_nil_of_all {α : Type} {p : α → Bool} :
    ∀ {l : List α}, l.all p = true → l.dropWhile p = [] := by
  intro l
  induction l with
  | nil => intro _; rfl
  | cons a as ih =>
    intro h
    simp only [List.all_cons, Bool.and_eq_true] at h
    obtain ⟨h1, h2⟩ := h
    rw [List.dropWhile_cons, if_pos h1]
    exact ih h2

/-- `dropWhile` skips over a leading block all of whose elements satisfy the
predicate. -/
theorem dropWhile_append_of_all {α : Type} {p : α → Bool} :
    ∀ {l1 l2 : List α}, l1.all p = true → (l1 ++ l2).dropWhile p = l2.dropWhile p := by
  intro l1
  induction l1 with
  | nil => intro l2 _; rfl
  | cons a as ih =>
    intro l2 h
    simp only [List.all_cons, Bool.and_eq_true] at h
    obtain ⟨h1, h2⟩ := h
    rw [List.cons_append, List.dropWhile_cons, if_pos h1]
    exact ih h2

/-- Stripping a whitespace-only character list yields the empty list. -/
theorem pyStripL_all_space {l : List Char} (h : l.all isPySpace = true) : pyStripL l = [] := by
  unfold pyStripL
  rw [dropWhile_eq_nil_of_all h]
  rfl

/-- The reverse of a stripped list is what `dropWhile` leaves of the reversed
left-stripped list. -/
theorem pyStripL_reverse (l : List Char) :
    (pyStripL l).reverse = ((l.dropWhile isPySpace).reverse).dropWhile isPySpace := by
  unfold pyStripL
  rw [List.reverse_reverse]

/-- The data of an appended string is the appended data. -/
theorem string_data_append (a b : String) : (a ++ b).data = a.data ++ b.data := by
  cases a; cases b; rfl

/-- Stripping ignores trailing whitespace after the literal `"Bearer "`:
the result is exactly the characters of `"Bearer"`. -/
theorem pyStripL_bearer_pad {wd : List Char} (h : wd.all isPySpace = true) :
    pyStripL ("Bearer ".data ++ wd) = "Bearer".data := by
  have hrev : wd.reverse.all isPySpace = true := by
    rw [List.all_eq_true] at h ⊢
    intro x hx
    exact h x (List.mem_reverse.mp hx)
  have hB : isPySpace 'B' = false := by decide
  unfold pyStripL
  have h1 : ("Bearer ".data ++ wd).dropWhile isPySpace = "Bearer ".data ++ wd := by
    rw [show "Bearer ".data = 'B' :: "earer ".data from rfl, List.cons_append,
      List.dropWhile_cons, hB]
    simp
  rw [h1, List.reverse_append, dropWhile_append_of_all hrev]
  decide

/-- If the stripped header still carries the `"Bearer "` head, then what is
left after removing it strips to a nonempty token: a stripped list never ends
in whitespace, and the character after the head's trailing space survives. -/
theorem strip_bearer_rest_ne_nil {l : List Char}
    (h : bearerChars.isPrefixOf (pyStripL l) = true) :
    pyStripL ((pyStripL l).drop bearerChars.length) ≠ [] := by
  have hpre : bearerChars <+: pyStripL l := List.isPrefixOf_iff_prefix.mp h
  obtain ⟨t, ht⟩ := hpre
  have hdrop : (pyStripL l).drop bearerChars.length = t := by
    rw [← ht]
    exact List.drop_left _ _
  rw [hdrop]
  have hsrev := pyStripL_reverse l
  have ht_ne : t ≠ [] := by
    intro h0
    subst h0
    rw [List.append_nil] at ht
    rw [← ht] at hsrev
    have hs7 : bearerChars.reverse = ' ' :: "reraeB".data := by decide
    rw [hs7] at hsrev
    have := dropWhile_head_neg hsrev.symm
    simp [isPySpace] at this
  obtain ⟨c, t2, ht2⟩ : ∃ c t2, t.reverse = c :: t2 := by
    cases htr : t.reverse with
    | nil =>
      exact absurd (by simpa using congrArg List.reverse htr) ht_ne
    | cons c t2 => exact ⟨c, t2, rfl⟩
  have hcrev : ((l.dropWhile isPySpace).reverse).dropWhile isPySpace
      = c :: (t2 ++ bearerChars.reverse) := by
    rw [← hsrev, ← ht, List.reverse_append, ht2]
    rfl
  have hc : isPySpace c = false := dropWhile_head_neg hcrev
  have hct : c ∈ t := List.mem_reverse.mp (ht2 ▸ List.mem_cons_self c t2)
  unfold pyStripL
  intro hnil
  have hX : ((t.dropWhile isPySpace).reverse).dropWhile isPySpace = [] := by
    simpa using congrArg List.reverse hnil
  have h3 := mem_dropWhile_of_neg (List.mem_reverse.mpr (mem_dropWhile_of_neg hct hc)) hc
  rw [hX] at h3
  cases h3

/-! ### Helper lemmas about the polling loop -/

/-- In any `wait_for_completion` trace, every `get_result` call is immediately
preceded by observing "Completed", whatever event came before the trace. -/
theorem waitRun_fetchGuarded : ∀ (gs : Nat → String) (fuel : Nat), ∀ (i : Nat)
    (prev : Option WEvent), fetchGuardedFrom prev (waitRun gs fuel i).1 = true := by
  intro gs fuel
  induction fuel with
  | zero => intro i prev; rfl
  | succ f ih =>
    intro i prev
    by_cases h1 : gs i = "Completed"
    · simp [waitRun, h1, fetchGuardedFrom]
    · by_cases h2 : gs i = "InProgress" ∨ gs i = "Queued"
      · simp [waitRun, h1, h2, fetchGuardedFrom, ih (i + 1)]
      · simp [waitRun, h1, h2, fetchGuardedFrom]

/-- Any `wait_for_completion` trace contains at most one `get_result` call. -/
theorem waitRun_countFetch : ∀ (gs : Nat → String) (fuel i : Nat),
    countFetch (waitRun gs fuel i).1 ≤ 1 := by
  intro gs fuel
  induction fuel with
  | zero => intro i; simp [waitRun, countFetch]
  | succ f ih =>
    intro i
    by_cases h1 : gs i = "Completed"
    · simp [waitRun, h1, countFetch, isFetch, List.countP_cons]
    · by_cases h2 : gs i = "InProgress" ∨ gs i = "Queued"
      · have hc := ih (i + 1)
        simp [waitRun, h1, h2, countFetch, isFetch, List.countP_cons]
        exact hc
      · simp [waitRun, h1, h2, countFetch, isFetch, List.countP_cons]

/-- When a `wait_for_completion` run raises, no `get_result` call happened and
the raising status is outside Completed / InProgress / Queued. -/
theorem waitRun_raisedOk : ∀ (gs : Nat → String) (fuel i : Nat),
    raisedOk (waitRun gs fuel i) = true := by
  intro gs fuel
  induction fuel with
  | zero => intro i; rfl
  | succ f ih =>
    intro i
    by_cases h1 : gs i = "Completed"
    · simp [waitRun, h1, raisedOk]
    · by_cases h2 : gs i = "InProgress" ∨ gs i = "Queued"
      · have hih := ih (i + 1)
        simp only [waitRun, if_neg h1, if_pos h2]
        cases hwr : waitRun gs f (i + 1) with
        | mk es o =>
          rw [hwr] at hih
          cases o with
          | gotResult => simp [raisedOk]
          | fuelOut => simp [raisedOk]
          | raised s =>
            simp [raisedOk, countFetch, List.countP_cons, isFetch] at hih ⊢
            exact hih
      · obtain ⟨h2a, h2b⟩ := not_or.mp h2
        simp [waitRun, h1, h2, raisedOk, countFetch, List.countP_cons, isFetch, h2a, h2b]

/-! ### Claim theorems -/

/-- C1 (code_bug evidence): in the `clone_audio` tool function there is no
`try`/`except` block, so a pipeline failure is NOT converted into a JSON
error envelope.  Concretely, for an invocation whose fal job reports the
status "Failed" at the first poll, `wait_for_completion` raises
`Exception("Request : Failed")` and that exception escapes `clone_audio`
uncaught; in particular the outcome is not an error envelope for any
message.  (This contradicts `clone_audio`'s own docstring, which promises "an
error message if the cloning process fails", and spec section 4.6.) -/
theorem C1_clone_audio_uncaught :
    clone_audio cloneFailEnv 1 = ToolOutcome.uncaught (PyErr.otherException "Request : Failed")
    ∧ ∀ m : String, clone_audio cloneFailEnv 1 ≠ ToolOutcome.envelopeErr m := by
  constructor
  · rfl
  · intro m h
    rw [show clone_audio cloneFailEnv 1
        = ToolOutcome.uncaught (PyErr.otherException "Request : Failed") from rfl] at h
    injection h

/-- C2: `wait_for_completion` calls `get_result` only right after observing
the status "Completed" (never after Queued or InProgress), calls it at most
once per invocation, and on any status other than Completed / InProgress /
Queued it raises without fetching: the loop body observes that status once
and ends in `raised`, with no `fetch` event in the trace. -/
theorem C2_wait_fetch_discipline : ∀ (gs : Nat → String) (fuel i : Nat),
    fetchGuarded (waitRun gs fuel i).1 = true
    ∧ countFetch (waitRun gs fuel i).1 ≤ 1
    ∧ raisedOk (waitRun gs fuel i) = true
    ∧ (gs i ≠ "Completed" → gs i ≠ "InProgress" → gs i ≠ "Queued" →
        waitRun gs (fuel + 1) i = ([WEvent.observe (gs i)], WOutcome.raised (gs i))) := by
  intro gs fuel i
  refine ⟨waitRun_fetchGuarded gs fuel i none, waitRun_countFetch gs fuel i,
    waitRun_raisedOk gs fuel i, ?_⟩
  intro hc hi hq
  have h2 : ¬(gs i = "InProgress" ∨ gs i = "Queued") := by
    rintro (h | h)
    · exact hi h
    · exact hq h
  simp [waitRun, hc, h2]

/-- C2 witness: applying the discipline theorem to the status oracle that
reports "Failed" at the first poll. -/
theorem C2_wait_witness :
    waitRun (fun _ => "Failed") 1 0 = ([WEvent.observe "Failed"], WOutcome.raised "Failed") :=
  (C2_wait_fetch_discipline (fun _ => "Failed") 0 0).2.2.2 (by decide) (by decide) (by decide)

/-- C3 (code_bug evidence): `wait_for_completion` accepts no deadline or
cancellation token — its only parameters are the request id and the poll
interval — and its `while True` loop never terminates for a job that never
reaches a terminal status: for a status oracle that answers "Queued" at every
poll, the loop is still running after any number of iterations. -/
theorem C3_wait_unbounded : ∀ (fuel i : Nat),
    (waitRun (fun _ => "Queued") fuel i).2 = WOutcome.fuelOut := by
  intro fuel
  induction fuel with
  | zero => intro i; rfl
  | succ f ih =>
    intro i
    have h1 : ¬(("Queued" : String) = "Completed") := by decide
    have h2 : ("Queued" : String) = "InProgress" ∨ ("Queued" : String) = "Queued" :=
      Or.inr rfl
    simp [waitRun, h1, h2, ih (i + 1)]

/-- C4 counterexample: the claim fails on two inputs.  A present-but-empty
`Authorization` value takes Python's falsy-header branch and yields the
missing-header error, not the empty-token error; and the value `"Bearer "`
(whitespace-only after the prefix) strips to the nonempty token "Bearer" and
is accepted, again not the empty-token error. -/
theorem C4_validate_token_counterexample :
    validate_token (some "") ≠ (false, none, "Empty authorization token")
    ∧ validate_token (some "Bearer ") ≠ (false, none, "Empty authorization token") := by
  decide

/-- C4 (amended): with no `Authorization` header, or with a present header
whose value is the empty string, `validate_token` fails with the
missing-header error and returns no token; a nonempty whitespace-only value
fails with the empty-token error and returns no token; and a value that is
`"Bearer "` followed only by whitespace strips to the token "Bearer" and is
accepted. -/
theorem C4_validate_token_errors :
    validate_token none = (false, none, "Missing Authorization header")
    ∧ validate_token (some "") = (false, none, "Missing Authorization header")
    ∧ (∀ v : String, v ≠ "" → v.data.all isPySpace = true →
        validate_token (some v) = (false, none, "Empty authorization token"))
    ∧ (∀ w : String, w.data.all isPySpace = true →
        validate_token (some ("Bearer " ++ w)) = (true, some "Bearer", "")) := by
  refine ⟨rfl, rfl, ?_, ?_⟩
  · intro v hv hsp
    have h0 : pyStripL v.data = [] := pyStripL_all_space hsp
    have hb : bearerChars.isPrefixOf ([] : List Char) = false := by decide
    simp [validate_token, hv, h0, hb]
  · intro w hw
    have hd : ("Bearer " ++ w).data = "Bearer ".data ++ w.data := string_data_append _ _
    have hne : ("Bearer " ++ w) ≠ "" := by
      intro h0
      have h1 := congrArg String.data h0
      rw [hd] at h1
      have hE : ("" : String).data = [] := rfl
      have hB : "Bearer ".data = 'B' :: "earer ".data := rfl
      rw [hE, hB] at h1
      simp at h1
    have hstrip : pyStripL (("Bearer " ++ w).data) = "Bearer".data := by
      rw [hd]; exact pyStripL_bearer_pad hw
    have hconv : ("Bearer " ++ w).data = 'B' :: 'e' :: 'a' :: 'r' :: 'e' :: 'r' :: ' ' :: w.data := by
      rw [hd]; rfl
    have hstrip2 : pyStripL ('B' :: 'e' :: 'a' :: 'r' :: 'e' :: 'r' :: ' ' :: w.data)
        = "Bearer".data := hconv ▸ hstrip
    have hb : ¬ (bearerChars <+: ("Bearer".data : List Char)) := by decide
    have hbF : bearerChars.isPrefixOf "Bearer".data = false := by decide
    have hnil : ("Bearer".data : List Char) ≠ [] := by decide
    have hfin : String.mk "Bearer".data = "Bearer" := rfl
    simp [validate_token, hne, hstrip, hstrip2, hb, hbF, hnil, hfin]

/-- C4 witness: the amended theorem applied to the whitespace-only value
`"   "` and to `"Bearer "` followed by two spaces. -/
theorem C4_validate_token_witness :
    validate_token (some "   ") = (false, none, "Empty authorization token")
    ∧ validate_token (some ("Bearer " ++ "  ")) = (true, some "Bearer", "") :=
  ⟨C4_validate_token_errors.2.2.1 "   " (by decide) (by decide),
   C4_validate_token_errors.2.2.2 "  " (by decide)⟩

/-- C5 counterexample: for the header value `"Bearer x "` the remainder after
removing the one leading prefix is `"x "`, but `validate_token` returns the
whitespace-trimmed token "x", not that remainder. -/
theorem C5_validate_token_counterexample :
    validate_token (some "Bearer x ") = (true, some "x", "")
    ∧ ("x" : String) ≠ "x " := by
  decide

/-- C5 (amended): for every header value whose whitespace-stripped form
begins with the literal `"Bearer "`, `validate_token` strips exactly that one
leading prefix from the stripped value, applied once, and returns the
whitespace-trimmed remainder as the token; occurrences of `"Bearer "`
embedded later inside the token are untouched (only the first
`bearerChars.length` characters are dropped). -/
theorem C5_validate_token_strips_once : ∀ v : String,
    bearerChars.isPrefixOf (pyStripL v.data) = true →
    validate_token (some v)
      = (true, some (String.mk (pyStripL ((pyStripL v.data).drop bearerChars.length))), "") := by
  intro v hp
  have hv : v ≠ "" := by
    intro h0
    subst h0
    have hE : ("" : String).data = [] := rfl
    rw [hE] at hp
    exact absurd hp (by decide)
  have hne := strip_bearer_rest_ne_nil hp
  simp [validate_token, hv, hp, hne]

/-- C5 witness: the amended theorem applied to `"Bearer Bearer xy"`: exactly
one leading prefix is stripped and the embedded `"Bearer "` stays in the
token. -/
theorem C5_validate_token_witness :
    validate_token (some "Bearer Bearer xy") = (true, some "Bearer xy", "") := by
  have h := C5_validate_token_strips_once "Bearer Bearer xy" (by decide)
  rw [h]
  decide

/-- C6: the result extractor of the genfill and background-replace servers
returns the url with no content type for a single `image` object, the url and
content type of the first element for an `images` list, raises carrying the
complete raw payload when neither shape matches, and when both shapes are
present the first matching shape (the `images` list, which the code checks
first) wins with no partial extraction. -/
theorem C6_extractor_shapes :
    extract_image_url (Json.obj [("image", Json.obj [("url", Json.str "http://x/a.png")])])
      = Except.ok ("http://x/a.png", none)
    ∧ extract_image_url (Json.obj [("images", Json.arr [Json.obj
        [("url", Json.str "http://x/b.webp"), ("content_type", Json.str "image/webp")]])])
      = Except.ok ("http://x/b.webp", some (Json.str "image/webp"))
    ∧ extract_image_url (Json.obj [("foo", Json.num 1)])
      = Except.error (Json.obj [("foo", Json.num 1)])
    ∧ extract_image_url (Json.obj
        [ ("images", Json.arr [Json.obj [("url", Json.str "http://x/first.png")]])
        , ("image", Json.obj [("url", Json.str "http://x/second.png")])])
      = Except.ok ("http://x/first.png", none) :=
  ⟨rfl, rfl, rfl, rfl⟩

/-- C7 counterexample: a create-upload response that lacks the `fields`
member (but has `url` and `file_id`) does NOT make phase 1 fail: the fields
default to an empty form map, the phase-2 transfer is performed, and a
receipt is produced. -/
theorem C7_upload_counterexample :
    (upload_to_s3 (Except.ok (Json.obj [("url", Json.str "https://bucket.example/upload"),
        ("file_id", Json.str "k1")])) (Except.ok ()) 5 "a.png").phase2_performed = true
    ∧ (upload_to_s3 (Except.ok (Json.obj [("url", Json.str "https://bucket.example/upload"),
        ("file_id", Json.str "k1")])) (Except.ok ()) 5 "a.png").outcome
      = Except.ok (Json.str "k1", 5) :=
  ⟨rfl, rfl⟩

/-- C7 (amended): `upload_to_s3` raises before any phase-2 transfer only when
the create-upload response lacks the `url` member (a key error, no receipt,
no transfer); a response lacking `fields` defaults them to an empty form map
and proceeds; a response lacking `file_id` raises a key error producing no
receipt, but only after the phase-2 transfer has been performed. -/
theorem C7_upload_phase1 : ∀ (p : Json) (ph2 : Except PyErr Unit) (n : Nat) (fn : String),
    (Json.get p "url" = none →
      (upload_to_s3 (Except.ok p) ph2 n fn).phase2_performed = false
      ∧ (upload_to_s3 (Except.ok p) ph2 n fn).outcome = Except.error (PyErr.keyError "url"))
    ∧ (Json.get p "url" ≠ none → Json.get p "file_id" = none →
      (upload_to_s3 (Except.ok p) (Except.ok ()) n fn).phase2_performed = true
      ∧ (upload_to_s3 (Except.ok p) (Except.ok ()) n fn).outcome
        = Except.error (PyErr.keyError "file_id")) := by
  intro p ph2 n fn
  constructor
  · intro hu
    simp [upload_to_s3, hu]
  · intro hu hf
    cases hu2 : Json.get p "url" with
    | none => exact absurd hu2 hu
    | some u => simp [upload_to_s3, hu2, hf]

/-- C7 witness: the amended theorem applied to a response without `url`
(fails before phase 2) and to a response with `url` but without `file_id`
(fails after phase 2 was performed). -/
theorem C7_upload_witness :
    ((upload_to_s3 (Except.ok (Json.obj [("fields", Json.obj [])]))
        (Except.ok ()) 3 "a.png").phase2_performed = false
      ∧ (upload_to_s3 (Except.ok (Json.obj [("fields", Json.obj [])]))
          (Except.ok ()) 3 "a.png").outcome = Except.error (PyErr.keyError "url"))
    ∧ ((upload_to_s3 (Except.ok (Json.obj [("url", Json.str "https://bucket.example/upload")]))
        (Except.ok ()) 3 "a.png").phase2_performed = true
      ∧ (upload_to_s3 (Except.ok (Json.obj [("url", Json.str "https://bucket.example/upload")]))
          (Except.ok ()) 3 "a.png").outcome = Except.error (PyErr.keyError "file_id")) :=
  ⟨(C7_upload_phase1 (Json.obj [("fields", Json.obj [])]) (Except.ok ()) 3 "a.png").1 rfl,
   (C7_upload_phase1 (Json.obj [("url", Json.str "https://bucket.example/upload")])
      (Except.ok ()) 3 "a.png").2 (fun h => Option.noConfusion h) rfl⟩

/-- C8 counterexample: a filename with no extension at all does not get the
generic binary type: the code substitutes the extension ".jpg" and sends
"image/jpeg" in the phase-1 request, not "application/octet-stream". -/
theorem C8_content_type_counterexample :
    (upload_to_s3 (Except.ok (Json.obj [])) (Except.ok ()) 0 "README").sent_content_type
      = "image/jpeg"
    ∧ ("image/jpeg" : String) ≠ "application/octet-stream" := by
  constructor
  · rfl
  · decide

/-- The content type sent in the phase-1 request depends only on the
filename. -/
theorem upload_sent_content_type : ∀ (ph1 : Except PyErr Json) (ph2 : Except PyErr Unit)
    (n : Nat) (fn : String),
    (upload_to_s3 ph1 ph2 n fn).sent_content_type = sentContentType fn := by
  intro ph1 ph2 n fn
  cases ph1 with
  | error e => rfl
  | ok p =>
    simp only [upload_to_s3]
    cases hu : Json.get p "url" with
    | none => simp [hu]
    | some u =>
      cases ph2 with
      | error e => simp [hu]
      | ok _ =>
        cases hf : Json.get p "file_id" with
        | none => simp [hu, hf]
        | some fid => simp [hu, hf]

/-- C8 (amended): for a filename containing a dot whose lowercased last-dot
extension is not a key of the extension-to-MIME table, the content type sent
in the phase-1 create-upload request is "application/octet-stream"; a
filename with no dot is given the substitute extension ".jpg" and is sent as
"image/jpeg". -/
theorem C8_content_type_sent : ∀ (ph1 : Except PyErr Json) (ph2 : Except PyErr Unit)
    (n : Nat) (fn : String),
    ('.' ∈ fn.data → dictGet EXT_TO_CONTENT_TYPE (py_ext fn) = none →
      (upload_to_s3 ph1 ph2 n fn).sent_content_type = "application/octet-stream")
    ∧ ('.' ∉ fn.data →
      (upload_to_s3 ph1 ph2 n fn).sent_content_type = "image/jpeg") := by
  intro ph1 ph2 n fn
  constructor
  · intro hdot hnone
    rw [upload_sent_content_type]
    unfold sentContentType
    rw [hnone]
    rfl
  · intro hdot
    rw [upload_sent_content_type]
    unfold sentContentType py_ext
    rw [if_neg hdot]
    rfl

/-- C8 witness: the amended theorem applied to "file.xyz" (unknown extension,
generic binary type) and "photo" (no dot, sent as the image type). -/
theorem C8_content_type_witness :
    (upload_to_s3 (Except.ok (Json.obj [])) (Except.ok ()) 0 "file.xyz").sent_content_type
      = "application/octet-stream"
    ∧ (upload_to_s3 (Except.ok (Json.obj [])) (Except.ok ()) 0 "photo").sent_content_type
      = "image/jpeg" :=
  ⟨(C8_content_type_sent (Except.ok (Json.obj [])) (Except.ok ()) 0 "file.xyz").1
      (by decide) (by decide),
   (C8_content_type_sent (Except.ok (Json.obj [])) (Except.ok ()) 0 "photo").2 (by decide)⟩

/-- C9: `infer_extension_from_content_type` returns ".png" for "image/png",
and the fixed fallback ".jpg" for a missing content type (`None` or the empty
string) and for the unrecognized content type "application/unknown". -/
theorem C9_infer_extension :
    infer_extension_from_content_type (some "image/png") = ".png"
    ∧ infer_extension_from_content_type none = ".jpg"
    ∧ infer_extension_from_content_type (some "") = ".jpg"
    ∧ infer_extension_from_content_type (some "application/unknown") = ".jpg" := by
  decide

/-- C10: when token validation fails, the `require_auth` wrapper returns the
JSON error envelope (an error message and an empty attachments list) without
invoking the wrapped function; when validation succeeds it invokes the
wrapped function exactly once, with the validated token as the injected
`auth_token` argument, and returns that function's result unchanged. -/
theorem C10_require_auth_wrapper : ∀ (α : Type) (func : Option String → α) (h : Option String),
    ((validate_token h).1 = false →
      require_auth func h
        = ⟨WrapResult.envelope ("Authentication failed: " ++ (validate_token h).2.2) [], 0, none⟩)
    ∧ ((validate_token h).1 = true →
      require_auth func h
        = ⟨WrapResult.passthrough (func (validate_token h).2.1), 1, (validate_token h).2.1⟩) := by
  intro α func h
  constructor
  · intro hv
    simp [require_auth, hv]
  · intro hv
    simp [require_auth, hv]

/-- C10 witness: the wrapper theorem applied to a request with no header
(error envelope, zero calls) and to one with the header "Bearer abc" (one
call with token "abc", result passed through). -/
theorem C10_require_auth_witness :
    require_auth (fun t => t) none
      = ⟨WrapResult.envelope "Authentication failed: Missing Authorization header" [], 0, none⟩
    ∧ require_auth (fun t => t) (some "Bearer abc")
      = ⟨WrapResult.passthrough (some "abc"), 1, some "abc"⟩ := by
  constructor
  · have h := (C10_require_auth_wrapper (Option String) (fun t => t) none).1 rfl
    rw [h]
    rfl
  · have h := (C10_require_auth_wrapper (Option String) (fun t => t) (some "Bearer abc")).2 rfl
    rw [h]
    rfl
